import Mathlib

/-
Verification of the single-assignment future primitive in
src/wait_event.h (SimpleWV2SyncWrapper).

Shallow embedding notes:
- The embedding is sequential: state is passed explicitly.  The global
  `loop_pumper` (an `EventPumper`) is threaded through the holder state.
- The producer context (the asynchronous handler firing during the blocked
  pump) is modelled by an `env : Option Result` argument to `Wait`: `some v`
  means the registered handler is invoked with payload `v` while the pump is
  blocked (the handler calls `Set`, which signals `StopPump`); `none` means
  the bounded pump elapses with no delivery.
- C `assert` (the `VERIFY_SEQUENCE_CALL` / `assert(!waiting_)` style checks)
  is modelled by a `fatal` flag in the operation outcome: `fatal = true`
  means a debug build aborts at that point.  The rest of the outcome
  describes the continuation the source writes explicitly after each such
  check (the `if (waiting_) return false;`-style fallbacks), which is what
  executes when the assertion is compiled out.
- `EXPECT_TRUE` in `Set` is a Google Test *non-fatal* expectation: it
  reports a failure and execution continues; it never aborts.  It is
  modelled by the `expectFailed` flag, distinct from `fatal`.
- Thread-confinement checks (`VERIFY_SEQUENCE_CALL(sequence_checker_)`)
  always pass in this single-threaded embedding, so they contribute
  `false` to every `fatal` flag; the only way `fatal` becomes true is a
  failing `assert` on program state.
-/

/-- Model of `EventPumper` (src/wait_event.h lines 30-48): the shared wake
primitive.  Only the observable flag `stop_pump_` is state; the mutex and
condition variable are synchronization machinery with no sequential
content. -/
structure EventPumper where
  stop_pump_ : Bool
deriving DecidableEq

/-- `EventPumper::PumpMessagesWithTimeout` (lines 33-37): blocks until
`stop_pump_` is true or the timeout elapses.  It reads the flag under the
lock but never writes it, so as a state transformer it is the identity. -/
def EventPumper.PumpMessagesWithTimeout (p : EventPumper) (_timeout_ms : Nat) :
    EventPumper :=
  p

/-- `EventPumper::StopPump` (lines 38-42): under the lock, sets `stop_pump_`
to true and notifies one waiter. -/
def EventPumper.StopPump (_p : EventPumper) : EventPumper :=
  { stop_pump_ := true }

/-- `kFutureTimeout` (line 49): the fixed bounded wait duration. -/
def kFutureTimeout : Nat := 30

/-- Mutable state of `EventResultHolder<Event, Result>` (lines 166-181)
relevant to the claims: the at-most-one-write slot `result_`
(`std::optional<Result>`), the `waiting_` flag, and the global
`loop_pumper` threaded through explicitly.  The sender pointer and
registration token do not affect any claimed behavior of
`Set`/`Wait`/`TryGet`/`Get`/`IsReady`. -/
structure EventResultHolder (Result : Type) where
  result_ : Option Result
  waiting_ : Bool
  pumper : EventPumper
deriving DecidableEq

/-- Outcome of `EventResultHolder::Set` (lines 155-164).  `fatal` records a
failing C `assert` (none exists in `Set` beyond the sequence check, which
passes here); `expectFailed` records a failing `EXPECT_TRUE` (non-fatal);
`signaled` records whether `loop_pumper.StopPump()` was called. -/
structure SetOut (Result : Type) where
  fatal : Bool
  expectFailed : Bool
  signaled : Bool
  state : EventResultHolder Result
deriving DecidableEq

/-- `EventResultHolder::Set(args...)` (lines 155-164):
`VERIFY_SEQUENCE_CALL`; `EXPECT_TRUE(!result_)`; `if (result_) return;`
`result_.emplace(...)`; `if (waiting_) loop_pumper.StopPump();`. -/
def EventResultHolder.Set {Result : Type} (s : EventResultHolder Result)
    (v : Result) : SetOut Result :=
  if s.result_.isSome then
    { fatal := false, expectFailed := true, signaled := false, state := s }
  else
    let s1 : EventResultHolder Result := { s with result_ := some v }
    if s.waiting_ then
      { fatal := false, expectFailed := false, signaled := true,
        state := { s1 with pumper := s1.pumper.StopPump } }
    else
      { fatal := false, expectFailed := false, signaled := false, state := s1 }

/-- Outcome of `EventResultHolder::Wait` (lines 137-149).  `pumped` records
whether `loop_pumper.PumpMessagesWithTimeout` was entered (i.e. whether the
call blocked on the wake primitive). -/
structure WaitOut (Result : Type) where
  fatal : Bool
  ret : Bool
  pumped : Bool
  state : EventResultHolder Result
deriving DecidableEq

/-- `EventResultHolder::Wait()` (lines 137-149):
`VERIFY_SEQUENCE_CALL`; `assert(!waiting_)`; `if (waiting_) return false;`
`if (result_) return true;` `waiting_ = true;`
`loop_pumper.PumpMessagesWithTimeout(kFutureTimeout);` `waiting_ = false;`
`return !!result_;`.  While the pump is blocked the producer may invoke the
registered handler (constructor lines 92-108), which calls `Set(got_args)`;
`env` supplies that payload, `none` meaning the timeout elapses with no
delivery. -/
def EventResultHolder.Wait {Result : Type} (s : EventResultHolder Result)
    (env : Option Result) : WaitOut Result :=
  if s.waiting_ then
    { fatal := true, ret := false, pumped := false, state := s }
  else if s.result_.isSome then
    { fatal := false, ret := true, pumped := false, state := s }
  else
    let s1 : EventResultHolder Result := { s with waiting_ := true }
    let s2 : EventResultHolder Result :=
      match env with
      | none =>
          { s1 with pumper := s1.pumper.PumpMessagesWithTimeout kFutureTimeout }
      | some v => (s1.Set v).state
    let s3 : EventResultHolder Result := { s2 with waiting_ := false }
    { fatal := false, ret := s3.result_.isSome, pumped := true, state := s3 }

/-- Outcome of `EventResultHolder::TryGet` (line 134).  `ret` models the
returned pointer: `some v` for `std::addressof(*result_)`, `none` for
`nullptr`. -/
structure TryGetOut (Result : Type) where
  fatal : Bool
  ret : Option Result
  pumped : Bool
  state : EventResultHolder Result
deriving DecidableEq

/-- `EventResultHolder::TryGet()` (line 134):
`return Wait() ? std::addressof(*result_) : nullptr;`. -/
def EventResultHolder.TryGet {Result : Type} (s : EventResultHolder Result)
    (env : Option Result) : TryGetOut Result :=
  let w := s.Wait env
  { fatal := w.fatal, ret := if w.ret then w.state.result_ else none,
    pumped := w.pumped, state := w.state }

/-- Outcome of `EventResultHolder::Get` (lines 124-131).  `loggedTimeout`
records the `std::cerr` timeout diagnostic; `returnedRef` models the
reference produced by `return *result;` — `none` stands for the dereference
of the unset slot (a null pointer dereference, undefined behavior). -/
structure GetOut (Result : Type) where
  fatal : Bool
  loggedTimeout : Bool
  returnedRef : Option Result
  pumped : Bool
  state : EventResultHolder Result
deriving DecidableEq

/-- `EventResultHolder::Get()` (lines 124-131):
`Result *result = TryGet(); if (!result) std::cerr << "Timed out...";
return *result;`. -/
def EventResultHolder.Get {Result : Type} (s : EventResultHolder Result)
    (env : Option Result) : GetOut Result :=
  let t := s.TryGet env
  { fatal := t.fatal, loggedTimeout := t.ret.isNone, returnedRef := t.ret,
    pumped := t.pumped, state := t.state }

/-- `EventResultHolder::IsReady()` (line 152): `return !!result_;`. -/
def EventResultHolder.IsReady {Result : Type} (s : EventResultHolder Result) :
    Bool :=
  s.result_.isSome

/-- One operation of the holder interface, for stating whole-trace
invariants.  `wait`, `tryGet` and `get` carry the producer action taken
while the pump (if entered) is blocked. -/
inductive HolderOp (Result : Type) where
  | set (v : Result)
  | wait (env : Option Result)
  | tryGet (env : Option Result)
  | get (env : Option Result)
  | isReady

/-- State transformer of a single holder operation (the state component of
the corresponding member function's outcome; `IsReady` is const). -/
def stepOp {Result : Type} (op : HolderOp Result)
    (s : EventResultHolder Result) : EventResultHolder Result :=
  match op with
  | .set v => (s.Set v).state
  | .wait env => (s.Wait env).state
  | .tryGet env => (s.TryGet env).state
  | .get env => (s.Get env).state
  | .isReady => s

/-- Runs a sequence of holder operations from a state. -/
def runOps {Result : Type} (ops : List (HolderOp Result))
    (s : EventResultHolder Result) : EventResultHolder Result :=
  match ops with
  | [] => s
  | op :: rest => runOps rest (stepOp op s)

/-- One operation of the wake primitive's interface. -/
inductive PumperOp where
  | pump (timeout_ms : Nat)
  | stop

/-- State transformer of a single `EventPumper` operation. -/
def pumperStep (op : PumperOp) (p : EventPumper) : EventPumper :=
  match op with
  | .pump t => p.PumpMessagesWithTimeout t
  | .stop => p.StopPump

/-- Runs a sequence of `EventPumper` operations from a state. -/
def pumperRun (ops : List PumperOp) (p : EventPumper) : EventPumper :=
  match ops with
  | [] => p
  | op :: rest => pumperRun rest (pumperStep op p)

/-- Windows `SUCCEEDED(hr)` for an `HRESULT`: success statuses are the
non-negative values; `S_OK = 0` is the standard success, failures such as
`E_FAIL = 0x80004005` are negative as signed 32-bit values. -/
def SUCCEEDED (hr : Int) : Bool :=
  decide (0 ≤ hr)

/-- The `HRESULT` `S_OK` (the ordinary success status). -/
def S_OK : Int := 0

/-- The `HRESULT` `E_FAIL` (`0x80004005` as a signed 32-bit value). -/
def E_FAIL : Int := -2147467259

/-- The constructor's registration check (src/wait_event.h lines 90-111):
`HRESULT hr = (sender_.Get()->*Event::AddMethod)(...); assert((hr));`.
A C `assert` fires exactly when its scalar argument is zero, so the
constructor aborts iff `hr == 0`. -/
def constructorRegisterFatal (hr : Int) : Bool :=
  hr == 0

/-- Claim C5: for every future that is not currently waiting and whose
result slot is already set, `Wait()` returns true immediately, without
blocking on the wake primitive (the pump is never entered) and without
modifying any state. -/
theorem wait_fast_path {Result : Type} (env : Option Result)
    (s : EventResultHolder Result) (h1 : s.waiting_ = false)
    (h2 : s.result_.isSome = true) :
    s.Wait env = { fatal := false, ret := true, pumped := false, state := s } := by
  simp [EventResultHolder.Wait, h1, h2]

/-- Witness for C5: a future with result `7` and no wait in progress. -/
theorem wait_fast_path_witness :
    EventResultHolder.Wait
        { result_ := some 7, waiting_ := false, pumper := { stop_pump_ := false } }
        (none : Option Nat)
      = { fatal := false, ret := true, pumped := false,
          state := { result_ := some 7, waiting_ := false,
                     pumper := { stop_pump_ := false } } } :=
  wait_fast_path none _ rfl rfl

/-- Claim C6: for every future on which a `Wait()` is already in progress
(`waiting_` true), a further call to `Wait()` fails the `assert(!waiting_)`
check (fatal) and never enters the blocking pump. -/
theorem wait_reentrant_fatal {Result : Type} (env : Option Result)
    (s : EventResultHolder Result) (h : s.waiting_ = true) :
    (s.Wait env).fatal = true ∧ (s.Wait env).pumped = false := by
  simp [EventResultHolder.Wait, h]

/-- Witness for C6: a second `Wait` on a future already waiting. -/
theorem wait_reentrant_fatal_witness :
    (EventResultHolder.Wait
        { result_ := none, waiting_ := true, pumper := { stop_pump_ := false } }
        (none : Option Nat)).fatal = true
    ∧ (EventResultHolder.Wait
        { result_ := none, waiting_ := true, pumper := { stop_pump_ := false } }
        (none : Option Nat)).pumped = false :=
  wait_reentrant_fatal none _ rfl

/-- Claim C9: for every future whose `waiting_` flag is true, `Wait()`
checks the waiting flag before the result slot, so (on the fallback path
after the assertion) it returns false even when the result slot is already
set, and it leaves the state — in particular the waiting flag, still
true — unchanged. -/
theorem wait_checks_waiting_before_result {Result : Type} (env : Option Result)
    (s : EventResultHolder Result) (h : s.waiting_ = true) :
    (s.Wait env).ret = false ∧ (s.Wait env).state = s
    ∧ (s.Wait env).state.waiting_ = true := by
  simp [EventResultHolder.Wait, h]

/-- Witness for C9: `waiting_` true with the result slot already set:
`Wait` still returns false and the waiting flag stays true. -/
theorem wait_checks_waiting_before_result_witness :
    (EventResultHolder.Wait
        { result_ := some 5, waiting_ := true, pumper := { stop_pump_ := false } }
        (none : Option Nat)).ret = false
    ∧ (EventResultHolder.Wait
        { result_ := some 5, waiting_ := true, pumper := { stop_pump_ := false } }
        (none : Option Nat)).state
      = { result_ := some 5, waiting_ := true, pumper := { stop_pump_ := false } }
    ∧ (EventResultHolder.Wait
        { result_ := some 5, waiting_ := true, pumper := { stop_pump_ := false } }
        (none : Option Nat)).state.waiting_ = true :=
  wait_checks_waiting_before_result none _ rfl

/-- Claim C7: for every future whose result slot is unset, `Set(payload)`
stores the payload into the result slot, and it calls
`loop_pumper.StopPump()` if and only if the `waiting_` flag is true at the
time of the call. -/
theorem set_stores_and_signals {Result : Type} (v : Result)
    (s : EventResultHolder Result) (h : s.result_ = none) :
    (s.Set v).state.result_ = some v ∧ (s.Set v).signaled = s.waiting_ := by
  cases hw : s.waiting_ <;> simp [EventResultHolder.Set, h, hw]

/-- Witness for C7: `Set 4` on an unset future with a wait in progress
stores the payload and signals the wake primitive. -/
theorem set_stores_and_signals_witness :
    (EventResultHolder.Set
        { result_ := none, waiting_ := true, pumper := { stop_pump_ := false } }
        (4 : Nat)).state.result_ = some 4
    ∧ (EventResultHolder.Set
        { result_ := none, waiting_ := true, pumper := { stop_pump_ := false } }
        (4 : Nat)).signaled
      = ({ result_ := none, waiting_ := true, pumper := { stop_pump_ := false } } :
          EventResultHolder Nat).waiting_ :=
  set_stores_and_signals 4 _ rfl

/-- Claim C10: for every future whose result slot is already set, a further
`Set(payload)` returns early leaving all state unchanged — the result slot
keeps its original value, the waiting flag is not modified, the wake
primitive state is untouched — and `StopPump` is not called even when the
waiting flag is true. -/
theorem set_second_call_noop {Result : Type} (v : Result)
    (s : EventResultHolder Result) (h : s.result_.isSome = true) :
    (s.Set v).state = s ∧ (s.Set v).signaled = false := by
  simp [EventResultHolder.Set, h]

/-- Witness for C10: a second `Set` on an already-set future with the
waiting flag true changes nothing and does not signal. -/
theorem set_second_call_noop_witness :
    (EventResultHolder.Set
        { result_ := some 3, waiting_ := true, pumper := { stop_pump_ := false } }
        (9 : Nat)).state
      = { result_ := some 3, waiting_ := true, pumper := { stop_pump_ := false } }
    ∧ (EventResultHolder.Set
        { result_ := some 3, waiting_ := true, pumper := { stop_pump_ := false } }
        (9 : Nat)).signaled = false :=
  set_second_call_noop 9 _ rfl

/-- Claim C1: for every call to `Get()`, if the result slot is set after the
internal `Wait` (i.e. `Wait` returned true), `Get` returns the reference to
the stored result and logs nothing; if the wait ends with the result still
unset (`Wait` returned false), `Get` logs the timeout diagnostic and then
dereferences the unset slot (`returnedRef = none` models that unsafe null
dereference).  Hence the dereference in `Get` is safe exactly under the
precondition that the result is set. -/
theorem get_unsafe_deref_on_timeout {Result : Type} (env : Option Result)
    (s : EventResultHolder Result) :
    ((s.Wait env).ret = true →
      (s.Get env).returnedRef = (s.Wait env).state.result_
      ∧ (s.Get env).returnedRef.isSome = true
      ∧ (s.Get env).loggedTimeout = false)
    ∧ ((s.Wait env).ret = false →
      (s.Get env).loggedTimeout = true ∧ (s.Get env).returnedRef = none) := by
  rcases s with ⟨res, wtg, ⟨sp⟩⟩
  cases wtg <;> cases res <;> cases env <;>
    simp [EventResultHolder.Get, EventResultHolder.TryGet,
      EventResultHolder.Wait, EventResultHolder.Set,
      EventPumper.PumpMessagesWithTimeout, EventPumper.StopPump]

/-- Witness for C1: a resolved future (result `7`) where `Get` returns the
stored value, and a never-resolved future where `Get` logs the timeout and
dereferences the unset slot. -/
theorem get_unsafe_deref_on_timeout_witness :
    ((EventResultHolder.Get
        { result_ := some 7, waiting_ := false, pumper := { stop_pump_ := false } }
        (none : Option Nat)).returnedRef
      = (EventResultHolder.Wait
          { result_ := some 7, waiting_ := false, pumper := { stop_pump_ := false } }
          (none : Option Nat)).state.result_
      ∧ (EventResultHolder.Get
          { result_ := some 7, waiting_ := false, pumper := { stop_pump_ := false } }
          (none : Option Nat)).returnedRef.isSome = true
      ∧ (EventResultHolder.Get
          { result_ := some 7, waiting_ := false, pumper := { stop_pump_ := false } }
          (none : Option Nat)).loggedTimeout = false)
    ∧ ((EventResultHolder.Get
          { result_ := none, waiting_ := false, pumper := { stop_pump_ := false } }
          (none : Option Nat)).loggedTimeout = true
      ∧ (EventResultHolder.Get
          { result_ := none, waiting_ := false, pumper := { stop_pump_ := false } }
          (none : Option Nat)).returnedRef = none) :=
  ⟨(get_unsafe_deref_on_timeout none _).1 rfl,
   (get_unsafe_deref_on_timeout none _).2 rfl⟩

/-- Claim C4: across every sequence of holder operations, the result slot
transitions unset to set at most once: once it holds a value, no subsequent
operation clears or replaces it. -/
theorem result_write_once {Result : Type} (ops : List (HolderOp Result))
    (s : EventResultHolder Result) (v : Result) (h : s.result_ = some v) :
    (runOps ops s).result_ = some v := by
  induction ops generalizing s with
  | nil => simpa [runOps] using h
  | cons op rest ih =>
    have hstep : (stepOp op s).result_ = some v := by
      cases op with
      | set w => simp [stepOp, EventResultHolder.Set, h]
      | wait env =>
          cases hw : s.waiting_ <;>
            simp [stepOp, EventResultHolder.Wait, h, hw]
      | tryGet env =>
          cases hw : s.waiting_ <;>
            simp [stepOp, EventResultHolder.TryGet, EventResultHolder.Wait, h, hw]
      | get env =>
          cases hw : s.waiting_ <;>
            simp [stepOp, EventResultHolder.Get, EventResultHolder.TryGet,
              EventResultHolder.Wait, h, hw]
      | isReady => simpa [stepOp] using h
    rw [runOps]
    exact ih _ hstep

/-- Witness for C4: a future resolved with `3` keeps `3` through a further
`Set`, a `Wait`, a `Get` and an `IsReady`. -/
theorem result_write_once_witness :
    (runOps [HolderOp.set 9, HolderOp.wait none, HolderOp.get none,
             HolderOp.isReady]
        { result_ := some 3, waiting_ := false,
          pumper := { stop_pump_ := false } }).result_ = some 3 :=
  result_write_once _ _ 3 rfl

/-- Claim C8: once the wake primitive's `stop_pump_` flag is true, no
sequence of `PumpMessagesWithTimeout` / `StopPump` operations ever resets
it: it remains true in every subsequent state. -/
theorem stop_pump_never_reset (ops : List PumperOp) (p : EventPumper)
    (h : p.stop_pump_ = true) : (pumperRun ops p).stop_pump_ = true := by
  induction ops generalizing p with
  | nil => simpa [pumperRun] using h
  | cons op rest ih =>
    have hstep : (pumperStep op p).stop_pump_ = true := by
      cases op <;>
        simp [pumperStep, EventPumper.PumpMessagesWithTimeout,
          EventPumper.StopPump, h]
    rw [pumperRun]
    exact ih _ hstep

/-- Witness for C8: after the flag is set, pumping twice and stopping again
leave it true. -/
theorem stop_pump_never_reset_witness :
    (pumperRun [PumperOp.pump 30, PumperOp.stop, PumperOp.pump 5]
        { stop_pump_ := true }).stop_pump_ = true :=
  stop_pump_never_reset _ _ rfl

/-- Counterexample for claim C3 as stated: on a future whose result slot is
already set (`some 3`), a second `Set 5` is not fatal — `Set` guards the
double write with the non-fatal Google Test `EXPECT_TRUE` and an early
return, not with an aborting `assert`. -/
theorem set_double_not_fatal_cex :
    ({ result_ := some 3, waiting_ := false, pumper := { stop_pump_ := false } } :
        EventResultHolder Nat).result_.isSome = true
    ∧ (EventResultHolder.Set
        { result_ := some 3, waiting_ := false, pumper := { stop_pump_ := false } }
        (5 : Nat)).fatal = false := by
  decide

/-- Claim C3 amended: for every future whose result slot is already set, a
second `Set(payload)` is rejected regardless of the payload — a non-fatal
expectation failure is reported and the call returns early with the state
unchanged — but it does not abort. -/
theorem set_double_rejected_nonfatal {Result : Type} (v : Result)
    (s : EventResultHolder Result) (h : s.result_.isSome = true) :
    (s.Set v).fatal = false ∧ (s.Set v).expectFailed = true
    ∧ (s.Set v).state = s := by
  simp [EventResultHolder.Set, h]

/-- Witness for the amended C3: a second `Set 8` on a future holding `2`. -/
theorem set_double_rejected_nonfatal_witness :
    (EventResultHolder.Set
        { result_ := some 2, waiting_ := false, pumper := { stop_pump_ := false } }
        (8 : Nat)).fatal = false
    ∧ (EventResultHolder.Set
        { result_ := some 2, waiting_ := false, pumper := { stop_pump_ := false } }
        (8 : Nat)).expectFailed = true
    ∧ (EventResultHolder.Set
        { result_ := some 2, waiting_ := false, pumper := { stop_pump_ := false } }
        (8 : Nat)).state
      = { result_ := some 2, waiting_ := false, pumper := { stop_pump_ := false } } :=
  set_double_rejected_nonfatal 8 _ rfl

/-- Claim C2 (code defect): the constructor's registration check is
`assert((hr))`, which fires exactly when `hr == 0`.  But `S_OK = 0` is the
standard *success* `HRESULT`, and failure codes such as `E_FAIL` are
nonzero: the successful registration aborts while the failed one passes the
check — the opposite of the claimed (and clearly intended) behavior, which
would be `assert(SUCCEEDED(hr))`. -/
theorem register_success_aborts_failure_passes :
    SUCCEEDED S_OK = true ∧ constructorRegisterFatal S_OK = true
    ∧ SUCCEEDED E_FAIL = false ∧ constructorRegisterFatal E_FAIL = false := by
  decide
